import Mathlib

/-!
Verification of the discovery-event and admission-control core of
zenoh-plugin-ros2dds (`src/zenoh-plugin-ros2dds/src/events.rs`).

The file shallowly embeds:
  * the interface identity records (`MsgPub`, `MsgSub`, ...),
  * the two event enums `ROS2DiscoveryEvent` and `ROS2AnnouncementEvent`,
  * the two admission predicates `is_allowed`,
  * the `Display` rendering of both event enums.

The policy oracle (`Allowance` in `config.rs`), the name resolver
(`key_expr_to_ros2_name` in `ros2_utils.rs`) and the `Display` rendering of
the interface records (`node_info.rs`) live outside `events.rs`; they are
embedded abstractly (as record fields holding arbitrary boolean/string
functions) or, where a concrete behaviour is needed, modelled from the
specification as indicated in the doc comments.
-/

namespace Ros2Events

/-- Interface identity record for a publisher (`node_info.rs::MsgPub`):
a name, a type string and an opaque set of writer ids. -/
structure MsgPub where
  name : String
  typ : String
  writers : List String
deriving DecidableEq, Repr

/-- Interface identity record for a subscriber (`node_info.rs::MsgSub`). -/
structure MsgSub where
  name : String
  typ : String
  readers : List String
deriving DecidableEq, Repr

/-- Interface identity record for a service server (`node_info.rs::ServiceSrv`);
the entity set is opaque to the admission core. -/
structure ServiceSrv where
  name : String
  typ : String
  entities : List String
deriving DecidableEq, Repr

/-- Interface identity record for a service client (`node_info.rs::ServiceCli`). -/
structure ServiceCli where
  name : String
  typ : String
  entities : List String
deriving DecidableEq, Repr

/-- Interface identity record for an action server (`node_info.rs::ActionSrv`). -/
structure ActionSrv where
  name : String
  typ : String
  entities : List String
deriving DecidableEq, Repr

/-- Interface identity record for an action client (`node_info.rs::ActionCli`). -/
structure ActionCli where
  name : String
  typ : String
  entities : List String
deriving DecidableEq, Repr

/-- Opaque QoS value attached to announced publishers/subscribers
(`cyclors::qos::Qos`); its content is never inspected by this core. -/
structure Qos where
  data : List String
deriving DecidableEq, Repr

/-- The policy oracle interface consumed by the admission predicates
(`config.rs::Allowance` as seen from `events.rs`): a default-disposition
bit, a node-membership test and one name-membership test per interface
kind.  Embedded abstractly: each test is an arbitrary boolean function. -/
structure Allowance where
  is_allow_by_default : Bool
  is_node_allowed : String → Bool
  is_publisher_allowed : String → Bool
  is_subscriber_allowed : String → Bool
  is_service_srv_allowed : String → Bool
  is_service_cli_allowed : String → Bool
  is_action_srv_allowed : String → Bool
  is_action_cli_allowed : String → Bool

/-- The slice of `config.rs::Config` visible to `events.rs`: the optional
allowance policy, plus the name-resolution collaborator.

The field `key_expr_to_ros2_name` is modelled from the spec: the external
routine `ros2_utils::key_expr_to_ros2_name(zenoh_key_expr, config)` (not
under `src/`) resolves a route address back to a logical ROS2 name and is
"parameterized by policy-specific naming configuration", hence embedded
as an arbitrary string function carried by the config value. -/
structure Config where
  allowance : Option Allowance
  key_expr_to_ros2_name : String → String

/-- A (local) discovery event of a ROS2 interface
(`events.rs::ROS2DiscoveryEvent`). -/
inductive ROS2DiscoveryEvent where
  | DiscoveredMsgPub (node : String) (iface : MsgPub)
  | UndiscoveredMsgPub (node : String) (iface : MsgPub)
  | DiscoveredMsgSub (node : String) (iface : MsgSub)
  | UndiscoveredMsgSub (node : String) (iface : MsgSub)
  | DiscoveredServiceSrv (node : String) (iface : ServiceSrv)
  | UndiscoveredServiceSrv (node : String) (iface : ServiceSrv)
  | DiscoveredServiceCli (node : String) (iface : ServiceCli)
  | UndiscoveredServiceCli (node : String) (iface : ServiceCli)
  | DiscoveredActionSrv (node : String) (iface : ActionSrv)
  | UndiscoveredActionSrv (node : String) (iface : ActionSrv)
  | DiscoveredActionCli (node : String) (iface : ActionCli)
  | UndiscoveredActionCli (node : String) (iface : ActionCli)
deriving DecidableEq, Repr

/-- Transcription of `events.rs::ROS2DiscoveryEvent::is_allowed`, arm by arm:
with a present policy, the allow-by-default branch takes the conjunction of
the node test and the kind-specific name test, the other branch takes the
disjunction; with no policy everything is allowed. -/
def ROS2DiscoveryEvent.is_allowed (e : ROS2DiscoveryEvent) (config : Config) : Bool :=
  match config.allowance with
  | some allowance =>
    match e with
    | .DiscoveredMsgPub node iface | .UndiscoveredMsgPub node iface =>
      if allowance.is_allow_by_default then
        allowance.is_node_allowed node && allowance.is_publisher_allowed iface.name
      else
        allowance.is_node_allowed node || allowance.is_publisher_allowed iface.name
    | .DiscoveredMsgSub node iface | .UndiscoveredMsgSub node iface =>
      if allowance.is_allow_by_default then
        allowance.is_node_allowed node && allowance.is_subscriber_allowed iface.name
      else
        allowance.is_node_allowed node || allowance.is_subscriber_allowed iface.name
    | .DiscoveredServiceSrv node iface | .UndiscoveredServiceSrv node iface =>
      if allowance.is_allow_by_default then
        allowance.is_node_allowed node && allowance.is_service_srv_allowed iface.name
      else
        allowance.is_node_allowed node || allowance.is_service_srv_allowed iface.name
    | .DiscoveredServiceCli node iface | .UndiscoveredServiceCli node iface =>
      if allowance.is_allow_by_default then
        allowance.is_node_allowed node && allowance.is_service_cli_allowed iface.name
      else
        allowance.is_node_allowed node || allowance.is_service_cli_allowed iface.name
    | .DiscoveredActionSrv node iface | .UndiscoveredActionSrv node iface =>
      if allowance.is_allow_by_default then
        allowance.is_node_allowed node && allowance.is_action_srv_allowed iface.name
      else
        allowance.is_node_allowed node || allowance.is_action_srv_allowed iface.name
    | .DiscoveredActionCli node iface | .UndiscoveredActionCli node iface =>
      if allowance.is_allow_by_default then
        allowance.is_node_allowed node && allowance.is_action_cli_allowed iface.name
      else
        allowance.is_node_allowed node || allowance.is_action_cli_allowed iface.name
  | none => true

/-- A (remote) announcement/retirement of a ROS2 interface
(`events.rs::ROS2AnnouncementEvent`); `OwnedKeyExpr` values are embedded
as strings. -/
inductive ROS2AnnouncementEvent where
  | AnnouncedMsgPub (zenoh_id : String) (zenoh_key_expr : String)
      (ros2_type : String) (keyless : Bool) (writer_qos : Qos)
  | RetiredMsgPub (zenoh_id : String) (zenoh_key_expr : String)
  | AnnouncedMsgSub (zenoh_id : String) (zenoh_key_expr : String)
      (ros2_type : String) (keyless : Bool) (reader_qos : Qos)
  | RetiredMsgSub (zenoh_id : String) (zenoh_key_expr : String)
  | AnnouncedServiceSrv (zenoh_id : String) (zenoh_key_expr : String)
      (ros2_type : String)
  | RetiredServiceSrv (zenoh_id : String) (zenoh_key_expr : String)
  | AnnouncedServiceCli (zenoh_id : String) (zenoh_key_expr : String)
      (ros2_type : String)
  | RetiredServiceCli (zenoh_id : String) (zenoh_key_expr : String)
  | AnnouncedActionSrv (zenoh_id : String) (zenoh_key_expr : String)
      (ros2_type : String)
  | RetiredActionSrv (zenoh_id : String) (zenoh_key_expr : String)
  | AnnouncedActionCli (zenoh_id : String) (zenoh_key_expr : String)
      (ros2_type : String)
  | RetiredActionCli (zenoh_id : String) (zenoh_key_expr : String)
deriving DecidableEq, Repr

/-- Transcription of `events.rs::ROS2AnnouncementEvent::is_allowed`, arm by arm:
with a present policy the resolved logical name of the route is tested
against the reciprocal kind's rule; with no policy everything is allowed. -/
def ROS2AnnouncementEvent.is_allowed (e : ROS2AnnouncementEvent) (config : Config) : Bool :=
  match config.allowance with
  | some allowance =>
    match e with
    | .AnnouncedMsgPub _ zenoh_key_expr _ _ _ | .RetiredMsgPub _ zenoh_key_expr =>
      allowance.is_subscriber_allowed (config.key_expr_to_ros2_name zenoh_key_expr)
    | .AnnouncedMsgSub _ zenoh_key_expr _ _ _ | .RetiredMsgSub _ zenoh_key_expr =>
      allowance.is_publisher_allowed (config.key_expr_to_ros2_name zenoh_key_expr)
    | .AnnouncedServiceSrv _ zenoh_key_expr _ | .RetiredServiceSrv _ zenoh_key_expr =>
      allowance.is_service_cli_allowed (config.key_expr_to_ros2_name zenoh_key_expr)
    | .AnnouncedServiceCli _ zenoh_key_expr _ | .RetiredServiceCli _ zenoh_key_expr =>
      allowance.is_service_srv_allowed (config.key_expr_to_ros2_name zenoh_key_expr)
    | .AnnouncedActionSrv _ zenoh_key_expr _ | .RetiredActionSrv _ zenoh_key_expr =>
      allowance.is_action_cli_allowed (config.key_expr_to_ros2_name zenoh_key_expr)
    | .AnnouncedActionCli _ zenoh_key_expr _ | .RetiredActionCli _ zenoh_key_expr =>
      allowance.is_action_srv_allowed (config.key_expr_to_ros2_name zenoh_key_expr)
  | none => true

/-- Modelled from the spec: the `Display` rendering of the interface
identity records lives in `node_info.rs`, which is not under `src/`; §4.3
states that `{iface}` renders as `"<Kind> <name>"`. -/
def MsgPub.display (i : MsgPub) : String := "Publisher " ++ i.name

/-- Modelled from the spec: see `MsgPub.display`. -/
def MsgSub.display (i : MsgSub) : String := "Subscriber " ++ i.name

/-- Modelled from the spec: see `MsgPub.display`. -/
def ServiceSrv.display (i : ServiceSrv) : String := "Service Server " ++ i.name

/-- Modelled from the spec: see `MsgPub.display`. -/
def ServiceCli.display (i : ServiceCli) : String := "Service Client " ++ i.name

/-- Modelled from the spec: see `MsgPub.display`. -/
def ActionSrv.display (i : ActionSrv) : String := "Action Server " ++ i.name

/-- Modelled from the spec: see `MsgPub.display`. -/
def ActionCli.display (i : ActionCli) : String := "Action Client " ++ i.name

/-- Transcription of `impl Display for ROS2DiscoveryEvent` (`events.rs`),
arm by arm: every `Discovered*` variant renders as
`"Node {node} declares {iface}"` and every `Undiscovered*` variant as
`"Node {node} undeclares {iface}"`. -/
def ROS2DiscoveryEvent.display : ROS2DiscoveryEvent → String
  | .DiscoveredMsgPub node iface => "Node " ++ node ++ " declares " ++ iface.display
  | .DiscoveredMsgSub node iface => "Node " ++ node ++ " declares " ++ iface.display
  | .DiscoveredServiceSrv node iface => "Node " ++ node ++ " declares " ++ iface.display
  | .DiscoveredServiceCli node iface => "Node " ++ node ++ " declares " ++ iface.display
  | .DiscoveredActionSrv node iface => "Node " ++ node ++ " declares " ++ iface.display
  | .DiscoveredActionCli node iface => "Node " ++ node ++ " declares " ++ iface.display
  | .UndiscoveredMsgPub node iface => "Node " ++ node ++ " undeclares " ++ iface.display
  | .UndiscoveredMsgSub node iface => "Node " ++ node ++ " undeclares " ++ iface.display
  | .UndiscoveredServiceSrv node iface => "Node " ++ node ++ " undeclares " ++ iface.display
  | .UndiscoveredServiceCli node iface => "Node " ++ node ++ " undeclares " ++ iface.display
  | .UndiscoveredActionSrv node iface => "Node " ++ node ++ " undeclares " ++ iface.display
  | .UndiscoveredActionCli node iface => "Node " ++ node ++ " undeclares " ++ iface.display

/-- Transcription of `impl Display for ROS2AnnouncementEvent` (`events.rs`),
arm by arm. -/
def ROS2AnnouncementEvent.display : ROS2AnnouncementEvent → String
  | .AnnouncedMsgPub _ zenoh_key_expr _ _ _ => "announces Publisher " ++ zenoh_key_expr
  | .AnnouncedMsgSub _ zenoh_key_expr _ _ _ => "announces Subscriber " ++ zenoh_key_expr
  | .AnnouncedServiceSrv _ zenoh_key_expr _ => "announces Service Server " ++ zenoh_key_expr
  | .AnnouncedServiceCli _ zenoh_key_expr _ => "announces Service Client " ++ zenoh_key_expr
  | .AnnouncedActionSrv _ zenoh_key_expr _ => "announces Action Server " ++ zenoh_key_expr
  | .AnnouncedActionCli _ zenoh_key_expr _ => "announces Action Client " ++ zenoh_key_expr
  | .RetiredMsgPub _ zenoh_key_expr => "retires Publisher " ++ zenoh_key_expr
  | .RetiredMsgSub _ zenoh_key_expr => "retires Subscriber " ++ zenoh_key_expr
  | .RetiredServiceSrv _ zenoh_key_expr => "retires Service Server " ++ zenoh_key_expr
  | .RetiredServiceCli _ zenoh_key_expr => "retires Service Client " ++ zenoh_key_expr
  | .RetiredActionSrv _ zenoh_key_expr => "retires Action Server " ++ zenoh_key_expr
  | .RetiredActionCli _ zenoh_key_expr => "retires Action Client " ++ zenoh_key_expr

/-! ### Observation helpers

Accessor functions used to state properties of the admission predicates.
Each one merely projects data out of an event; the reviewer can check them
against the corresponding match arms of `events.rs`. -/

/-- The six interface kinds. -/
inductive IfaceKind where
  | pub | sub | srvSrv | srvCli | actSrv | actCli
deriving DecidableEq, Repr

/-- The interface kind of a discovery event. -/
def ROS2DiscoveryEvent.kind : ROS2DiscoveryEvent → IfaceKind
  | .DiscoveredMsgPub _ _ | .UndiscoveredMsgPub _ _ => .pub
  | .DiscoveredMsgSub _ _ | .UndiscoveredMsgSub _ _ => .sub
  | .DiscoveredServiceSrv _ _ | .UndiscoveredServiceSrv _ _ => .srvSrv
  | .DiscoveredServiceCli _ _ | .UndiscoveredServiceCli _ _ => .srvCli
  | .DiscoveredActionSrv _ _ | .UndiscoveredActionSrv _ _ => .actSrv
  | .DiscoveredActionCli _ _ | .UndiscoveredActionCli _ _ => .actCli

/-- The node name carried by a discovery event. -/
def ROS2DiscoveryEvent.node : ROS2DiscoveryEvent → String
  | .DiscoveredMsgPub node _ | .UndiscoveredMsgPub node _ => node
  | .DiscoveredMsgSub node _ | .UndiscoveredMsgSub node _ => node
  | .DiscoveredServiceSrv node _ | .UndiscoveredServiceSrv node _ => node
  | .DiscoveredServiceCli node _ | .UndiscoveredServiceCli node _ => node
  | .DiscoveredActionSrv node _ | .UndiscoveredActionSrv node _ => node
  | .DiscoveredActionCli node _ | .UndiscoveredActionCli node _ => node

/-- The interface name carried by a discovery event. -/
def ROS2DiscoveryEvent.ifaceName : ROS2DiscoveryEvent → String
  | .DiscoveredMsgPub _ iface | .UndiscoveredMsgPub _ iface => iface.name
  | .DiscoveredMsgSub _ iface | .UndiscoveredMsgSub _ iface => iface.name
  | .DiscoveredServiceSrv _ iface | .UndiscoveredServiceSrv _ iface => iface.name
  | .DiscoveredServiceCli _ iface | .UndiscoveredServiceCli _ iface => iface.name
  | .DiscoveredActionSrv _ iface | .UndiscoveredActionSrv _ iface => iface.name
  | .DiscoveredActionCli _ iface | .UndiscoveredActionCli _ iface => iface.name

/-- The kind-specific name test of the policy oracle selected by each kind,
matching the selector used in the corresponding `is_allowed` match arm. -/
def IfaceKind.nameTest (a : Allowance) : IfaceKind → (String → Bool)
  | .pub => a.is_publisher_allowed
  | .sub => a.is_subscriber_allowed
  | .srvSrv => a.is_service_srv_allowed
  | .srvCli => a.is_service_cli_allowed
  | .actSrv => a.is_action_srv_allowed
  | .actCli => a.is_action_cli_allowed

/-- The route address (zenoh key expression) carried by an announcement
event. -/
def ROS2AnnouncementEvent.keyExpr : ROS2AnnouncementEvent → String
  | .AnnouncedMsgPub _ zenoh_key_expr _ _ _ | .RetiredMsgPub _ zenoh_key_expr => zenoh_key_expr
  | .AnnouncedMsgSub _ zenoh_key_expr _ _ _ | .RetiredMsgSub _ zenoh_key_expr => zenoh_key_expr
  | .AnnouncedServiceSrv _ zenoh_key_expr _ | .RetiredServiceSrv _ zenoh_key_expr => zenoh_key_expr
  | .AnnouncedServiceCli _ zenoh_key_expr _ | .RetiredServiceCli _ zenoh_key_expr => zenoh_key_expr
  | .AnnouncedActionSrv _ zenoh_key_expr _ | .RetiredActionSrv _ zenoh_key_expr => zenoh_key_expr
  | .AnnouncedActionCli _ zenoh_key_expr _ | .RetiredActionCli _ zenoh_key_expr => zenoh_key_expr

/-- The interface kind of an announcement event. -/
def ROS2AnnouncementEvent.kind : ROS2AnnouncementEvent → IfaceKind
  | .AnnouncedMsgPub _ _ _ _ _ | .RetiredMsgPub _ _ => .pub
  | .AnnouncedMsgSub _ _ _ _ _ | .RetiredMsgSub _ _ => .sub
  | .AnnouncedServiceSrv _ _ _ | .RetiredServiceSrv _ _ => .srvSrv
  | .AnnouncedServiceCli _ _ _ | .RetiredServiceCli _ _ => .srvCli
  | .AnnouncedActionSrv _ _ _ | .RetiredActionSrv _ _ => .actSrv
  | .AnnouncedActionCli _ _ _ | .RetiredActionCli _ _ => .actCli

/-- The reciprocal interface kind (§4.2): the complementary local kind that
a remote announcement of the given kind would create. -/
def IfaceKind.reciprocal : IfaceKind → IfaceKind
  | .pub => .sub
  | .sub => .pub
  | .srvSrv => .srvCli
  | .srvCli => .srvSrv
  | .actSrv => .actCli
  | .actCli => .actSrv

/-- Per-kind name lists together with a node list, the shape of one
`allow`/`deny` section of the policy configuration (§6). -/
structure InterfaceLists where
  publishers : List String
  subscribers : List String
  service_servers : List String
  service_clients : List String
  action_servers : List String
  action_clients : List String
  nodes : List String
deriving DecidableEq, Repr

/-- Modelled from the spec: the concrete policy oracle built from an
`allow` configuration section (`config.rs::Allowance`, not under `src/`).
Per §6 an `allow` section induces one membership test per kind plus a node
membership test.  The oracle's observable behaviour is pinned by §8/§9 to
the literal test-oracle table (`events.rs::tests`, which is authoritative
per §9 over the §4.1 prose): reproducing that table through the admission
code in `events.rs` forces a listed name to pass its test, a non-listed
name to fail it, and the `is_allow_by_default` bit reported for an
allow-list to be `false` (so that the admission code takes its disjunctive
branch) — any other bit value contradicts the table's
`(denied_node, allowed_iface) -> allowed` row. -/
def allowPolicy (l : InterfaceLists) : Allowance where
  is_allow_by_default := false
  is_node_allowed := fun s => decide (s ∈ l.nodes)
  is_publisher_allowed := fun s => decide (s ∈ l.publishers)
  is_subscriber_allowed := fun s => decide (s ∈ l.subscribers)
  is_service_srv_allowed := fun s => decide (s ∈ l.service_servers)
  is_service_cli_allowed := fun s => decide (s ∈ l.service_clients)
  is_action_srv_allowed := fun s => decide (s ∈ l.action_servers)
  is_action_cli_allowed := fun s => decide (s ∈ l.action_clients)

/-- Modelled from the spec: the concrete policy oracle built from a `deny`
configuration section (`config.rs::Allowance`, not under `src/`).  Per §6 a
`deny` section lists what is denied, so each test answers "not listed"; the
§8 deny-list table reproduced through `events.rs` forces
`is_allow_by_default` to be `true` for a deny-list (the admission code
takes its conjunctive branch) — any other bit value contradicts the
table's `(allowed_node, Y) -> disallowed` row. -/
def denyPolicy (l : InterfaceLists) : Allowance where
  is_allow_by_default := true
  is_node_allowed := fun s => !decide (s ∈ l.nodes)
  is_publisher_allowed := fun s => !decide (s ∈ l.publishers)
  is_subscriber_allowed := fun s => !decide (s ∈ l.subscribers)
  is_service_srv_allowed := fun s => !decide (s ∈ l.service_servers)
  is_service_cli_allowed := fun s => !decide (s ∈ l.service_clients)
  is_action_srv_allowed := fun s => !decide (s ∈ l.action_servers)
  is_action_cli_allowed := fun s => !decide (s ∈ l.action_clients)

/-- Config holding an allow-list that lists node `N` and interface name `X`
in every kind's list, with name resolver `r` (the §8 allow-list scenario). -/
def allowListConfig (N X : String) (r : String → String) : Config :=
  ⟨some (allowPolicy ⟨[X], [X], [X], [X], [X], [X], [N]⟩), r⟩

/-- Config holding a deny-list that lists node `D` and interface name `Y`
in every kind's list, with name resolver `r` (the §8 deny-list scenario). -/
def denyListConfig (D Y : String) (r : String → String) : Config :=
  ⟨some (denyPolicy ⟨[Y], [Y], [Y], [Y], [Y], [Y], [D]⟩), r⟩

/-! ### Normal forms of the two admission predicates

Shared helper lemmas: each predicate, written through the observation
helpers, so that the per-claim theorems follow by rewriting. -/

/-- Normal form of discovery admission: the result depends only on the
policy, the default-disposition bit, the node test and the kind-selected
name test. -/
theorem discovery_is_allowed_spec (e : ROS2DiscoveryEvent) (cfg : Config) :
    e.is_allowed cfg =
      match cfg.allowance with
      | none => true
      | some a =>
        if a.is_allow_by_default then
          a.is_node_allowed e.node && e.kind.nameTest a e.ifaceName
        else
          a.is_node_allowed e.node || e.kind.nameTest a e.ifaceName := by
  obtain ⟨alw, r⟩ := cfg
  cases alw <;> cases e <;> rfl

/-- Normal form of discovery admission with a present policy, stated
without a match on the option. -/
theorem ROS2DiscoveryEvent.is_allowed_some (e : ROS2DiscoveryEvent)
    (a : Allowance) (r : String → String) :
    e.is_allowed ⟨some a, r⟩ =
      if a.is_allow_by_default then
        a.is_node_allowed e.node && e.kind.nameTest a e.ifaceName
      else
        a.is_node_allowed e.node || e.kind.nameTest a e.ifaceName := by
  cases e <;> rfl

/-- Normal form of announcement admission: the result depends only on the
policy and the reciprocal-kind name test applied to the resolved route
name. -/
theorem announcement_is_allowed_spec (e : ROS2AnnouncementEvent) (cfg : Config) :
    e.is_allowed cfg =
      match cfg.allowance with
      | none => true
      | some a =>
        e.kind.reciprocal.nameTest a (cfg.key_expr_to_ros2_name e.keyExpr) := by
  obtain ⟨alw, r⟩ := cfg
  cases alw <;> cases e <;> rfl

/-- A policy oracle with the given default-disposition bit whose every
test answers `true`; used to instantiate witnesses. -/
def constTrueOracle (d : Bool) : Allowance :=
  ⟨d, fun _ => true, fun _ => true, fun _ => true, fun _ => true,
    fun _ => true, fun _ => true, fun _ => true⟩

/-- C1: with a present policy whose default disposition is allow-by-default
(the oracle's `is_allow_by_default` bit is `true`), discovery admission
answers `true` exactly when the oracle's node test and the kind-selected
name test both answer `true` — a logical AND of the two oracle answers,
for every one of the twelve event variants. -/
theorem discovery_allow_by_default_conjunction
    (cfg : Config) (a : Allowance) (e : ROS2DiscoveryEvent)
    (hpol : cfg.allowance = some a) (hdef : a.is_allow_by_default = true) :
    e.is_allowed cfg = true ↔
      (a.is_node_allowed e.node = true ∧ e.kind.nameTest a e.ifaceName = true) := by
  rw [discovery_is_allowed_spec, hpol]
  simp [hdef]

/-- Witness for C1 at a concrete event and policy. -/
theorem discovery_allow_by_default_conjunction_witness :
    (ROS2DiscoveryEvent.DiscoveredMsgPub "n" ⟨"/t", "T", []⟩).is_allowed
        ⟨some (constTrueOracle true), id⟩ = true ↔
      ((constTrueOracle true).is_node_allowed
          (ROS2DiscoveryEvent.DiscoveredMsgPub "n" ⟨"/t", "T", []⟩).node = true ∧
        (ROS2DiscoveryEvent.DiscoveredMsgPub "n" ⟨"/t", "T", []⟩).kind.nameTest
          (constTrueOracle true)
          (ROS2DiscoveryEvent.DiscoveredMsgPub "n" ⟨"/t", "T", []⟩).ifaceName = true) :=
  discovery_allow_by_default_conjunction ⟨some (constTrueOracle true), id⟩
    (constTrueOracle true) (ROS2DiscoveryEvent.DiscoveredMsgPub "n" ⟨"/t", "T", []⟩)
    rfl rfl

/-- C3: with a present policy whose default disposition is deny-by-default
(the oracle's `is_allow_by_default` bit is `false`), discovery admission
answers `true` exactly when the oracle's node test or the kind-selected
name test answers `true` — a logical OR of the two oracle answers, so an
event is rejected only when both answers are `false`. -/
theorem discovery_deny_by_default_disjunction
    (cfg : Config) (a : Allowance) (e : ROS2DiscoveryEvent)
    (hpol : cfg.allowance = some a) (hdef : a.is_allow_by_default = false) :
    e.is_allowed cfg = true ↔
      (a.is_node_allowed e.node = true ∨ e.kind.nameTest a e.ifaceName = true) := by
  rw [discovery_is_allowed_spec, hpol]
  simp [hdef]

/-- Witness for C3 at a concrete event and policy. -/
theorem discovery_deny_by_default_disjunction_witness :
    (ROS2DiscoveryEvent.DiscoveredMsgSub "n" ⟨"/t", "T", []⟩).is_allowed
        ⟨some (constTrueOracle false), id⟩ = true ↔
      ((constTrueOracle false).is_node_allowed
          (ROS2DiscoveryEvent.DiscoveredMsgSub "n" ⟨"/t", "T", []⟩).node = true ∨
        (ROS2DiscoveryEvent.DiscoveredMsgSub "n" ⟨"/t", "T", []⟩).kind.nameTest
          (constTrueOracle false)
          (ROS2DiscoveryEvent.DiscoveredMsgSub "n" ⟨"/t", "T", []⟩).ifaceName = true) :=
  discovery_deny_by_default_disjunction ⟨some (constTrueOracle false), id⟩
    (constTrueOracle false) (ROS2DiscoveryEvent.DiscoveredMsgSub "n" ⟨"/t", "T", []⟩)
    rfl rfl

/-- C2: under an allow policy listing node `N` and, per kind, interface
name `X` (and nothing else), discovery admission yields, for every kind:
`(N, X)` allowed, `(N, x)` allowed, `(n, X)` allowed and `(n, x)`
disallowed, for any non-listed node `n` and non-listed name `x` — the
literal four-case allow-list test-oracle table of §8. -/
theorem allow_list_four_case_table (N X n x : String) (r : String → String)
    (hn : n ≠ N) (hx : x ≠ X) :
    ((ROS2DiscoveryEvent.DiscoveredMsgPub N ⟨X, "T", []⟩).is_allowed
        (allowListConfig N X r) = true ∧
      (ROS2DiscoveryEvent.DiscoveredMsgPub N ⟨x, "T", []⟩).is_allowed
        (allowListConfig N X r) = true ∧
      (ROS2DiscoveryEvent.DiscoveredMsgPub n ⟨X, "T", []⟩).is_allowed
        (allowListConfig N X r) = true ∧
      (ROS2DiscoveryEvent.DiscoveredMsgPub n ⟨x, "T", []⟩).is_allowed
        (allowListConfig N X r) = false) ∧
    ((ROS2DiscoveryEvent.DiscoveredMsgSub N ⟨X, "T", []⟩).is_allowed
        (allowListConfig N X r) = true ∧
      (ROS2DiscoveryEvent.DiscoveredMsgSub N ⟨x, "T", []⟩).is_allowed
        (allowListConfig N X r) = true ∧
      (ROS2DiscoveryEvent.DiscoveredMsgSub n ⟨X, "T", []⟩).is_allowed
        (allowListConfig N X r) = true ∧
      (ROS2DiscoveryEvent.DiscoveredMsgSub n ⟨x, "T", []⟩).is_allowed
        (allowListConfig N X r) = false) ∧
    ((ROS2DiscoveryEvent.DiscoveredServiceSrv N ⟨X, "T", []⟩).is_allowed
        (allowListConfig N X r) = true ∧
      (ROS2DiscoveryEvent.DiscoveredServiceSrv N ⟨x, "T", []⟩).is_allowed
        (allowListConfig N X r) = true ∧
      (ROS2DiscoveryEvent.DiscoveredServiceSrv n ⟨X, "T", []⟩).is_allowed
        (allowListConfig N X r) = true ∧
      (ROS2DiscoveryEvent.DiscoveredServiceSrv n ⟨x, "T", []⟩).is_allowed
        (allowListConfig N X r) = false) ∧
    ((ROS2DiscoveryEvent.DiscoveredServiceCli N ⟨X, "T", []⟩).is_allowed
        (allowListConfig N X r) = true ∧
      (ROS2DiscoveryEvent.DiscoveredServiceCli N ⟨x, "T", []⟩).is_allowed
        (allowListConfig N X r) = true ∧
      (ROS2DiscoveryEvent.DiscoveredServiceCli n ⟨X, "T", []⟩).is_allowed
        (allowListConfig N X r) = true ∧
      (ROS2DiscoveryEvent.DiscoveredServiceCli n ⟨x, "T", []⟩).is_allowed
        (allowListConfig N X r) = false) ∧
    ((ROS2DiscoveryEvent.DiscoveredActionSrv N ⟨X, "T", []⟩).is_allowed
        (allowListConfig N X r) = true ∧
      (ROS2DiscoveryEvent.DiscoveredActionSrv N ⟨x, "T", []⟩).is_allowed
        (allowListConfig N X r) = true ∧
      (ROS2DiscoveryEvent.DiscoveredActionSrv n ⟨X, "T", []⟩).is_allowed
        (allowListConfig N X r) = true ∧
      (ROS2DiscoveryEvent.DiscoveredActionSrv n ⟨x, "T", []⟩).is_allowed
        (allowListConfig N X r) = false) ∧
    ((ROS2DiscoveryEvent.DiscoveredActionCli N ⟨X, "T", []⟩).is_allowed
        (allowListConfig N X r) = true ∧
      (ROS2DiscoveryEvent.DiscoveredActionCli N ⟨x, "T", []⟩).is_allowed
        (allowListConfig N X r) = true ∧
      (ROS2DiscoveryEvent.DiscoveredActionCli n ⟨X, "T", []⟩).is_allowed
        (allowListConfig N X r) = true ∧
      (ROS2DiscoveryEvent.DiscoveredActionCli n ⟨x, "T", []⟩).is_allowed
        (allowListConfig N X r) = false) := by
  simp [ROS2DiscoveryEvent.is_allowed, allowListConfig, allowPolicy, hn, hx]

/-- Witness for C2: the §8 allow-list scenario at the literal test values,
with the `(denied_node, denied_iface)` row rejected. -/
theorem allow_list_four_case_table_witness :
    (ROS2DiscoveryEvent.DiscoveredMsgPub "denied_node"
        ⟨"/XXX_pub", "T", []⟩).is_allowed
      (allowListConfig "allowed_node" "/pub" id) = false :=
  ((allow_list_four_case_table "allowed_node" "/pub" "denied_node" "/XXX_pub" id
    (by decide) (by decide)).1).2.2.2

/-- C4: under a deny policy listing node `D` and, per kind, interface name
`Y` (and nothing else), discovery admission yields, for every kind:
`(n, y)` allowed, `(n, Y)` disallowed, `(D, y)` disallowed and `(D, Y)`
disallowed, for any non-listed node `n` and non-listed name `y` — denial
on either axis alone suffices to reject, the literal §8 deny-list table. -/
theorem deny_list_four_case_table (D Y n y : String) (r : String → String)
    (hn : n ≠ D) (hy : y ≠ Y) :
    ((ROS2DiscoveryEvent.DiscoveredMsgPub n ⟨y, "T", []⟩).is_allowed
        (denyListConfig D Y r) = true ∧
      (ROS2DiscoveryEvent.DiscoveredMsgPub n ⟨Y, "T", []⟩).is_allowed
        (denyListConfig D Y r) = false ∧
      (ROS2DiscoveryEvent.DiscoveredMsgPub D ⟨y, "T", []⟩).is_allowed
        (denyListConfig D Y r) = false ∧
      (ROS2DiscoveryEvent.DiscoveredMsgPub D ⟨Y, "T", []⟩).is_allowed
        (denyListConfig D Y r) = false) ∧
    ((ROS2DiscoveryEvent.DiscoveredMsgSub n ⟨y, "T", []⟩).is_allowed
        (denyListConfig D Y r) = true ∧
      (ROS2DiscoveryEvent.DiscoveredMsgSub n ⟨Y, "T", []⟩).is_allowed
        (denyListConfig D Y r) = false ∧
      (ROS2DiscoveryEvent.DiscoveredMsgSub D ⟨y, "T", []⟩).is_allowed
        (denyListConfig D Y r) = false ∧
      (ROS2DiscoveryEvent.DiscoveredMsgSub D ⟨Y, "T", []⟩).is_allowed
        (denyListConfig D Y r) = false) ∧
    ((ROS2DiscoveryEvent.DiscoveredServiceSrv n ⟨y, "T", []⟩).is_allowed
        (denyListConfig D Y r) = true ∧
      (ROS2DiscoveryEvent.DiscoveredServiceSrv n ⟨Y, "T", []⟩).is_allowed
        (denyListConfig D Y r) = false ∧
      (ROS2DiscoveryEvent.DiscoveredServiceSrv D ⟨y, "T", []⟩).is_allowed
        (denyListConfig D Y r) = false ∧
      (ROS2DiscoveryEvent.DiscoveredServiceSrv D ⟨Y, "T", []⟩).is_allowed
        (denyListConfig D Y r) = false) ∧
    ((ROS2DiscoveryEvent.DiscoveredServiceCli n ⟨y, "T", []⟩).is_allowed
        (denyListConfig D Y r) = true ∧
      (ROS2DiscoveryEvent.DiscoveredServiceCli n ⟨Y, "T", []⟩).is_allowed
        (denyListConfig D Y r) = false ∧
      (ROS2DiscoveryEvent.DiscoveredServiceCli D ⟨y, "T", []⟩).is_allowed
        (denyListConfig D Y r) = false ∧
      (ROS2DiscoveryEvent.DiscoveredServiceCli D ⟨Y, "T", []⟩).is_allowed
        (denyListConfig D Y r) = false) ∧
    ((ROS2DiscoveryEvent.DiscoveredActionSrv n ⟨y, "T", []⟩).is_allowed
        (denyListConfig D Y r) = true ∧
      (ROS2DiscoveryEvent.DiscoveredActionSrv n ⟨Y, "T", []⟩).is_allowed
        (denyListConfig D Y r) = false ∧
      (ROS2DiscoveryEvent.DiscoveredActionSrv D ⟨y, "T", []⟩).is_allowed
        (denyListConfig D Y r) = false ∧
      (ROS2DiscoveryEvent.DiscoveredActionSrv D ⟨Y, "T", []⟩).is_allowed
        (denyListConfig D Y r) = false) ∧
    ((ROS2DiscoveryEvent.DiscoveredActionCli n ⟨y, "T", []⟩).is_allowed
        (denyListConfig D Y r) = true ∧
      (ROS2DiscoveryEvent.DiscoveredActionCli n ⟨Y, "T", []⟩).is_allowed
        (denyListConfig D Y r) = false ∧
      (ROS2DiscoveryEvent.DiscoveredActionCli D ⟨y, "T", []⟩).is_allowed
        (denyListConfig D Y r) = false ∧
      (ROS2DiscoveryEvent.DiscoveredActionCli D ⟨Y, "T", []⟩).is_allowed
        (denyListConfig D Y r) = false) := by
  simp [ROS2DiscoveryEvent.is_allowed, denyListConfig, denyPolicy, hn, hy]

/-- Witness for C4: the §8 deny-list scenario at the literal test values,
with the `(allowed_node, denied_iface)` row rejected. -/
theorem deny_list_four_case_table_witness :
    (ROS2DiscoveryEvent.DiscoveredMsgPub "allowed_node"
        ⟨"/XXX_pub", "T", []⟩).is_allowed
      (denyListConfig "denied_node" "/XXX_pub" id) = false :=
  ((deny_list_four_case_table "denied_node" "/XXX_pub" "allowed_node" "/pub" id
    (by decide) (by decide)).1).2.1

/-- C5: with a present policy, announcement admission equals the single
oracle answer of the reciprocal kind's name test (per `IfaceKind.reciprocal`:
publisher paired with subscriber, service server with service client,
action server with action client, in both directions, identically for
`Announced` and `Retired` variants) applied to the logical name resolved
from the event's route address. -/
theorem announcement_reciprocal_mapping
    (cfg : Config) (a : Allowance) (e : ROS2AnnouncementEvent)
    (hpol : cfg.allowance = some a) :
    e.is_allowed cfg =
      e.kind.reciprocal.nameTest a (cfg.key_expr_to_ros2_name e.keyExpr) := by
  rw [announcement_is_allowed_spec, hpol]

/-- Witness for C5 at a concrete announcement and policy. -/
theorem announcement_reciprocal_mapping_witness :
    (ROS2AnnouncementEvent.AnnouncedMsgPub "peer" "cmd_vel" "T" true ⟨[]⟩).is_allowed
        ⟨some (constTrueOracle true), id⟩ =
      (ROS2AnnouncementEvent.AnnouncedMsgPub "peer" "cmd_vel" "T" true
          ⟨[]⟩).kind.reciprocal.nameTest (constTrueOracle true)
        ((⟨some (constTrueOracle true), id⟩ : Config).key_expr_to_ros2_name
          (ROS2AnnouncementEvent.AnnouncedMsgPub "peer" "cmd_vel" "T" true
            ⟨[]⟩).keyExpr) :=
  announcement_reciprocal_mapping ⟨some (constTrueOracle true), id⟩
    (constTrueOracle true)
    (ROS2AnnouncementEvent.AnnouncedMsgPub "peer" "cmd_vel" "T" true ⟨[]⟩) rfl

/-- C6: when no policy is configured, both admission predicates answer
`true` on every event. -/
theorem no_policy_allows_all (r : String → String)
    (e : ROS2DiscoveryEvent) (e' : ROS2AnnouncementEvent) :
    e.is_allowed ⟨none, r⟩ = true ∧ e'.is_allowed ⟨none, r⟩ = true :=
  ⟨by cases e <;> rfl, by cases e' <;> rfl⟩

/-- Witness for C6 at a concrete event pair. -/
theorem no_policy_allows_all_witness :
    (ROS2DiscoveryEvent.DiscoveredMsgPub "n" ⟨"/t", "T", []⟩).is_allowed
        ⟨none, id⟩ = true ∧
      (ROS2AnnouncementEvent.RetiredMsgSub "z" "k").is_allowed ⟨none, id⟩ = true :=
  no_policy_allows_all id (ROS2DiscoveryEvent.DiscoveredMsgPub "n" ⟨"/t", "T", []⟩)
    (ROS2AnnouncementEvent.RetiredMsgSub "z" "k")

/-- C7: announcement admission never consults the node rule: replacing the
oracle's node test by an arbitrary other one leaves every result unchanged,
and the result is exactly the reciprocal-kind name test applied to the
resolved route name. -/
theorem announcement_independent_of_node_rule (a : Allowance)
    (f : String → Bool) (r : String → String) (e : ROS2AnnouncementEvent) :
    e.is_allowed ⟨some { a with is_node_allowed := f }, r⟩ =
        e.is_allowed ⟨some a, r⟩ ∧
      e.is_allowed ⟨some a, r⟩ =
        e.kind.reciprocal.nameTest a (r e.keyExpr) :=
  ⟨by cases e <;> rfl, by cases e <;> rfl⟩

/-- Witness for C7 at a concrete announcement and policy. -/
theorem announcement_independent_of_node_rule_witness :
    (ROS2AnnouncementEvent.AnnouncedServiceSrv "z" "k" "T").is_allowed
        ⟨some { constTrueOracle true with is_node_allowed := fun _ => false },
          id⟩ =
        (ROS2AnnouncementEvent.AnnouncedServiceSrv "z" "k" "T").is_allowed
          ⟨some (constTrueOracle true), id⟩ ∧
      (ROS2AnnouncementEvent.AnnouncedServiceSrv "z" "k" "T").is_allowed
          ⟨some (constTrueOracle true), id⟩ =
        (ROS2AnnouncementEvent.AnnouncedServiceSrv "z" "k"
            "T").kind.reciprocal.nameTest (constTrueOracle true)
          (id (ROS2AnnouncementEvent.AnnouncedServiceSrv "z" "k" "T").keyExpr) :=
  announcement_independent_of_node_rule (constTrueOracle true) (fun _ => false) id
    (ROS2AnnouncementEvent.AnnouncedServiceSrv "z" "k" "T")

/-- C8: the discovery combination rule is uniform across kinds: two events
with the same node and the same interface name whose kind-selected name
tests agree on that name receive the same admission answer, whatever their
kinds. -/
theorem discovery_kind_uniformity
    (cfg : Config) (a : Allowance) (e e' : ROS2DiscoveryEvent)
    (hpol : cfg.allowance = some a)
    (hnode : e.node = e'.node) (hname : e.ifaceName = e'.ifaceName)
    (htest : e.kind.nameTest a e.ifaceName = e'.kind.nameTest a e.ifaceName) :
    e.is_allowed cfg = e'.is_allowed cfg := by
  obtain ⟨alw, r⟩ := cfg
  obtain rfl : alw = some a := hpol
  rw [ROS2DiscoveryEvent.is_allowed_some, ROS2DiscoveryEvent.is_allowed_some,
    hnode, htest, hname]

/-- Witness for C8: a publisher event and a subscriber event with the same
node and name receive the same answer under an oracle whose publisher and
subscriber tests agree. -/
theorem discovery_kind_uniformity_witness :
    (ROS2DiscoveryEvent.DiscoveredMsgPub "n" ⟨"/t", "T", []⟩).is_allowed
        ⟨some (constTrueOracle true), id⟩ =
      (ROS2DiscoveryEvent.DiscoveredMsgSub "n" ⟨"/t", "T", []⟩).is_allowed
        ⟨some (constTrueOracle true), id⟩ :=
  discovery_kind_uniformity ⟨some (constTrueOracle true), id⟩ (constTrueOracle true)
    (ROS2DiscoveryEvent.DiscoveredMsgPub "n" ⟨"/t", "T", []⟩)
    (ROS2DiscoveryEvent.DiscoveredMsgSub "n" ⟨"/t", "T", []⟩)
    rfl rfl rfl rfl

/-- C9: discovery admission depends only on the event's kind, node name and
interface name: two events agreeing on these three receive the same answer
under every policy — in particular `Discovered`/`Undiscovered` transition,
the interface type string and the kind-specific peer-entity set are
irrelevant. -/
theorem discovery_depends_only_on_kind_node_name
    (cfg : Config) (e e' : ROS2DiscoveryEvent)
    (hkind : e.kind = e'.kind) (hnode : e.node = e'.node)
    (hname : e.ifaceName = e'.ifaceName) :
    e.is_allowed cfg = e'.is_allowed cfg := by
  rw [discovery_is_allowed_spec, discovery_is_allowed_spec,
    hkind, hnode, hname]

/-- Witness for C9: a `Discovered` and an `Undiscovered` publisher event
differing also in type string and writer set receive the same answer. -/
theorem discovery_depends_only_on_kind_node_name_witness :
    (ROS2DiscoveryEvent.DiscoveredMsgPub "n" ⟨"/t", "T", ["w1"]⟩).is_allowed
        (allowListConfig "n" "/t" id) =
      (ROS2DiscoveryEvent.UndiscoveredMsgPub "n" ⟨"/t", "U", []⟩).is_allowed
        (allowListConfig "n" "/t" id) :=
  discovery_depends_only_on_kind_node_name (allowListConfig "n" "/t" id)
    (ROS2DiscoveryEvent.DiscoveredMsgPub "n" ⟨"/t", "T", ["w1"]⟩)
    (ROS2DiscoveryEvent.UndiscoveredMsgPub "n" ⟨"/t", "U", []⟩)
    rfl rfl rfl

/-- C10: rendering is deterministic (equal event values render to equal
strings) and every variant follows its fixed template: `Discovered*` as
"Node {node} declares {iface}", `Undiscovered*` as
"Node {node} undeclares {iface}", `Announced*` as
"announces <Kind> {route_address}" and `Retired*` as
"retires <Kind> {route_address}". -/
theorem display_deterministic_and_fixed_templates :
    (∀ e e' : ROS2DiscoveryEvent, e = e' → e.display = e'.display) ∧
    (∀ e e' : ROS2AnnouncementEvent, e = e' → e.display = e'.display) ∧
    (∀ node (i : MsgPub), (ROS2DiscoveryEvent.DiscoveredMsgPub node i).display =
      "Node " ++ node ++ " declares " ++ i.display) ∧
    (∀ node (i : MsgSub), (ROS2DiscoveryEvent.DiscoveredMsgSub node i).display =
      "Node " ++ node ++ " declares " ++ i.display) ∧
    (∀ node (i : ServiceSrv), (ROS2DiscoveryEvent.DiscoveredServiceSrv node i).display =
      "Node " ++ node ++ " declares " ++ i.display) ∧
    (∀ node (i : ServiceCli), (ROS2DiscoveryEvent.DiscoveredServiceCli node i).display =
      "Node " ++ node ++ " declares " ++ i.display) ∧
    (∀ node (i : ActionSrv), (ROS2DiscoveryEvent.DiscoveredActionSrv node i).display =
      "Node " ++ node ++ " declares " ++ i.display) ∧
    (∀ node (i : ActionCli), (ROS2DiscoveryEvent.DiscoveredActionCli node i).display =
      "Node " ++ node ++ " declares " ++ i.display) ∧
    (∀ node (i : MsgPub), (ROS2DiscoveryEvent.UndiscoveredMsgPub node i).display =
      "Node " ++ node ++ " undeclares " ++ i.display) ∧
    (∀ node (i : MsgSub), (ROS2DiscoveryEvent.UndiscoveredMsgSub node i).display =
      "Node " ++ node ++ " undeclares " ++ i.display) ∧
    (∀ node (i : ServiceSrv), (ROS2DiscoveryEvent.UndiscoveredServiceSrv node i).display =
      "Node " ++ node ++ " undeclares " ++ i.display) ∧
    (∀ node (i : ServiceCli), (ROS2DiscoveryEvent.UndiscoveredServiceCli node i).display =
      "Node " ++ node ++ " undeclares " ++ i.display) ∧
    (∀ node (i : ActionSrv), (ROS2DiscoveryEvent.UndiscoveredActionSrv node i).display =
      "Node " ++ node ++ " undeclares " ++ i.display) ∧
    (∀ node (i : ActionCli), (ROS2DiscoveryEvent.UndiscoveredActionCli node i).display =
      "Node " ++ node ++ " undeclares " ++ i.display) ∧
    (∀ z k t kl q, (ROS2AnnouncementEvent.AnnouncedMsgPub z k t kl q).display =
      "announces Publisher " ++ k) ∧
    (∀ z k t kl q, (ROS2AnnouncementEvent.AnnouncedMsgSub z k t kl q).display =
      "announces Subscriber " ++ k) ∧
    (∀ z k t, (ROS2AnnouncementEvent.AnnouncedServiceSrv z k t).display =
      "announces Service Server " ++ k) ∧
    (∀ z k t, (ROS2AnnouncementEvent.AnnouncedServiceCli z k t).display =
      "announces Service Client " ++ k) ∧
    (∀ z k t, (ROS2AnnouncementEvent.AnnouncedActionSrv z k t).display =
      "announces Action Server " ++ k) ∧
    (∀ z k t, (ROS2AnnouncementEvent.AnnouncedActionCli z k t).display =
      "announces Action Client " ++ k) ∧
    (∀ z k, (ROS2AnnouncementEvent.RetiredMsgPub z k).display =
      "retires Publisher " ++ k) ∧
    (∀ z k, (ROS2AnnouncementEvent.RetiredMsgSub z k).display =
      "retires Subscriber " ++ k) ∧
    (∀ z k, (ROS2AnnouncementEvent.RetiredServiceSrv z k).display =
      "retires Service Server " ++ k) ∧
    (∀ z k, (ROS2AnnouncementEvent.RetiredServiceCli z k).display =
      "retires Service Client " ++ k) ∧
    (∀ z k, (ROS2AnnouncementEvent.RetiredActionSrv z k).display =
      "retires Action Server " ++ k) ∧
    (∀ z k, (ROS2AnnouncementEvent.RetiredActionCli z k).display =
      "retires Action Client " ++ k) :=
  by
  refine ⟨fun e e' h => congrArg ROS2DiscoveryEvent.display h,
    fun e e' h => congrArg ROS2AnnouncementEvent.display h, ?_⟩
  repeat' apply And.intro
  all_goals intros
  all_goals rfl

/-- Witness for C10: determinism applied at a concrete event. -/
theorem display_deterministic_and_fixed_templates_witness :
    (ROS2DiscoveryEvent.DiscoveredMsgPub "n" ⟨"/t", "T", []⟩).display =
      (ROS2DiscoveryEvent.DiscoveredMsgPub "n" ⟨"/t", "T", []⟩).display :=
  display_deterministic_and_fixed_templates.1
    (ROS2DiscoveryEvent.DiscoveredMsgPub "n" ⟨"/t", "T", []⟩)
    (ROS2DiscoveryEvent.DiscoveredMsgPub "n" ⟨"/t", "T", []⟩) rfl

end Ros2Events
